import Mathlib

/-!
Shallow embedding of `src/modules/wayland/waylandmodule.cpp` from fcitx5:
the Wayland connection registry (`WaylandModule`), the per-connection I/O
pump (`WaylandConnection::onIOEvent`), and the KDE keyboard-layout
synchronization handler installed in the `WaylandModule` constructor.

External collaborators (the libwayland transport, the event loop, dbus, the
on-disk ini reader/writer) are modelled as explicit parameters and effect
lists: each registry operation returns the new registry state together with
the notifications it published and the external actions it requested.
-/

namespace Fcitx.Wayland

/-- A connection held in the registry: its name (the empty string is the
default display), an opaque display-handle identifier, and the last observed
protocol error code (`error_` in the source, 0 = none). -/
structure WaylandConnection where
  name : String
  display : Nat
  error : Int
deriving Repr, DecidableEq

/-- The focus group created for a connection is identified by
`"wayland:" + name_` (see `WaylandConnection`'s constructor). -/
def focusGroupDisplay (c : WaylandConnection) : String :=
  "wayland:" ++ c.name

/-- The registry state of `WaylandModule`: the name-keyed connection map
`conns_` (modelled as an association list with unique keys), the two handler
tables (subscribers identified by opaque ids), the cached
`isWaylandSession_` flag and the host's `exitWhenMainDisplayDisconnected()`
policy flag. -/
structure WaylandModule where
  conns : List (String × WaylandConnection)
  createdCallbacks : List Nat
  closedCallbacks : List Nat
  isWaylandSession : Bool
  exitWhenMainDisplayDisconnected : Bool
deriving Repr, DecidableEq

/-- `conns_.find(name)` on the name-keyed map. -/
def findConn (conns : List (String × WaylandConnection)) (name : String) :
    Option WaylandConnection :=
  match conns with
  | [] => none
  | (k, c) :: rest => if k = name then some c else findConn rest name

/-- `conns_.erase(iter)`: removes the entry found under `name` (with unique
keys, the first occurrence). -/
def eraseConn (conns : List (String × WaylandConnection)) (name : String) :
    List (String × WaylandConnection) :=
  match conns with
  | [] => []
  | (k, c) :: rest => if k = name then rest else (k, c) :: eraseConn rest name

/-- Payload of a `WaylandConnectionCreated` notification:
`(conn.name(), *conn.display(), conn.focusGroup())`. -/
structure CreatedEvent where
  name : String
  display : Nat
  group : String
deriving Repr, DecidableEq

/-- Payload of a `WaylandConnectionClosed` notification:
`(conn.name(), *conn.display())`. -/
structure ClosedEvent where
  name : String
  display : Nat
deriving Repr, DecidableEq

def createdEvent (c : WaylandConnection) : CreatedEvent :=
  { name := c.name, display := c.display, group := focusGroupDisplay c }

def closedEvent (c : WaylandConnection) : ClosedEvent :=
  { name := c.name, display := c.display }

/-- `WaylandModule::onConnectionCreated`: publish a created notification to
every subscriber in `createdCallbacks_.view()`, in table order. -/
def onConnectionCreated (m : WaylandModule) (c : WaylandConnection) :
    List (Nat × CreatedEvent) :=
  m.createdCallbacks.map (fun id => (id, createdEvent c))

/-- `WaylandModule::onConnectionClosed`: publish a closed notification to
every subscriber in `closedCallbacks_.view()`, in table order. -/
def onConnectionClosed (m : WaylandModule) (c : WaylandConnection) :
    List (Nat × ClosedEvent) :=
  m.closedCallbacks.map (fun id => (id, closedEvent c))

/-- Result of `WaylandModule::removeDisplay`: the updated registry, the
closed notifications delivered (one per closed-table subscriber), and
whether `instance_->exit()` was requested. -/
structure RemoveResult where
  module : WaylandModule
  closedNotifications : List (Nat × ClosedEvent)
  exitRequested : Bool
deriving Repr, DecidableEq

/-- `WaylandModule::removeDisplay(name)`: if `name` is present, publish the
closed notification and erase the entry.  Independently of presence, request
process exit when `name` is empty, the exit-on-main-display-loss policy is
set and the session is a wayland session (the exit check in the source sits
outside the `if (iter != conns_.end())` block). -/
def removeDisplay (m : WaylandModule) (name : String) : RemoveResult :=
  let (conns, notifs) :=
    match findConn m.conns name with
    | some c => (eraseConn m.conns name, onConnectionClosed m c)
    | none => (m.conns, ([] : List (Nat × ClosedEvent)))
  { module := { m with conns := conns }
    closedNotifications := notifs
    exitRequested :=
      name.isEmpty && m.exitWhenMainDisplayDisconnected && m.isWaylandSession }

/-- Result of `WaylandModule::openDisplay`: the updated registry and the
created notifications delivered (one per created-table subscriber). -/
structure OpenResult where
  module : WaylandModule
  createdNotifications : List (Nat × CreatedEvent)
deriving Repr, DecidableEq

/-- `WaylandModule::openDisplay(name)`.  `connectOk` models whether
`wl_display_connect` succeeds inside the `WaylandConnection` constructor
(the constructor throws when it returns null); `displayHandle` is the opaque
handle the transport would hand back.  On constructor failure the `catch`
swallows the exception: nothing is registered and nothing is published.  On
success, `conns_.emplace` inserts only if `name` is absent; either way
`onConnectionCreated` is invoked on the entry the returned iterator points
to — the freshly inserted connection, or the pre-existing one. -/
def openDisplay (connectOk : Bool) (displayHandle : Nat) (m : WaylandModule)
    (name : String) : OpenResult :=
  if connectOk then
    match findConn m.conns name with
    | some existing =>
      { module := m, createdNotifications := onConnectionCreated m existing }
    | none =>
      let c : WaylandConnection :=
        { name := name, display := displayHandle, error := 0 }
      let m' := { m with conns := m.conns ++ [(name, c)] }
      { module := m', createdNotifications := onConnectionCreated m' c }
  else
    { module := m, createdNotifications := [] }

/-- Result of `WaylandModule::addConnectionCreatedCallback`: the updated
registry, the token for the new subscription, and the replay invocations of
the newly added callback. -/
structure AddCreatedResult where
  module : WaylandModule
  token : Nat
  invocations : List (Nat × CreatedEvent)
deriving Repr, DecidableEq

/-- `WaylandModule::addConnectionCreatedCallback`: append the subscriber to
the created table, then invoke the new handler once per entry of `conns_`
(in map order) before returning the token. -/
def addConnectionCreatedCallback (m : WaylandModule) (newId : Nat) :
    AddCreatedResult :=
  let m' := { m with createdCallbacks := m.createdCallbacks ++ [newId] }
  { module := m'
    token := newId
    invocations := m.conns.map (fun p => (newId, createdEvent p.2)) }

/-- `WaylandModule::addConnectionClosedCallback`: append the subscriber to
the closed table; no replay. -/
def addConnectionClosedCallback (m : WaylandModule) (newId : Nat) :
    WaylandModule × Nat :=
  ({ m with closedCallbacks := m.closedCallbacks ++ [newId] }, newId)

/-- Readiness flags delivered to the I/O event callback
(`IOEventFlag::In`, `::Err`, `::Hup`). -/
structure IOEventFlags where
  readable : Bool
  err : Bool
  hup : Bool
deriving Repr, DecidableEq

/-- What the libwayland transport would answer during one pump invocation:
the `wl_display_prepare_read` result (0 means this caller acquired the read
intention), the `wl_display_dispatch` result (negative on error), and the
`wl_display_get_error` code. -/
structure Transport where
  prepareReadResult : Int
  dispatchResult : Int
  lastError : Int
deriving Repr, DecidableEq

/-- Trace of one `WaylandConnection::onIOEvent` invocation: which transport
steps ran, the connection's `error_` field afterwards, and whether
`finish()` was invoked. -/
structure PumpResult where
  didPrepare : Bool
  didRead : Bool
  didDispatch : Bool
  didFlush : Bool
  error : Int
  finishCalled : Bool
deriving Repr, DecidableEq

/-- `WaylandConnection::onIOEvent(flags)`.  Err/Hup short-circuit to
`finish()`.  Otherwise: prepare-read (reading only when the prepare result
is 0), dispatch; on a negative dispatch result capture
`wl_display_get_error` into `error_` and `finish()` when it is nonzero;
reaching the end flushes. -/
def onIOEvent (flags : IOEventFlags) (t : Transport) (error0 : Int) :
    PumpResult :=
  if flags.err || flags.hup then
    { didPrepare := false, didRead := false, didDispatch := false
      didFlush := false, error := error0, finishCalled := true }
  else
    let didRead := t.prepareReadResult == 0
    if t.dispatchResult < 0 then
      if t.lastError ≠ 0 then
        { didPrepare := true, didRead := didRead, didDispatch := true
          didFlush := false, error := t.lastError, finishCalled := true }
      else
        { didPrepare := true, didRead := didRead, didDispatch := true
          didFlush := true, error := t.lastError, finishCalled := false }
    else
      { didPrepare := true, didRead := didRead, didDispatch := true
        didFlush := true, error := error0, finishCalled := false }

/-- Combined result of pumping one registered connection:
`onIOEvent` followed, when `finish()` fired, by
`WaylandConnection::finish` = `parent_->removeDisplay(name_)`. -/
structure PumpStepResult where
  module : WaylandModule
  pump : PumpResult
  closedNotifications : List (Nat × ClosedEvent)
  exitRequested : Bool
deriving Repr, DecidableEq

/-- Pump the connection `c` registered in `m`: run `onIOEvent` and, when it
invoked `finish()`, perform `removeDisplay(c.name)` on the registry. -/
def pumpConnection (m : WaylandModule) (c : WaylandConnection)
    (flags : IOEventFlags) (t : Transport) : PumpStepResult :=
  let r := onIOEvent flags t c.error
  if r.finishCalled then
    let rem := removeDisplay m c.name
    { module := rem.module, pump := r
      closedNotifications := rem.closedNotifications
      exitRequested := rem.exitRequested }
  else
    { module := m, pump := r, closedNotifications := [], exitRequested := false }

/-- One registry operation, for reasoning about arbitrary open/remove
sequences. -/
inductive RegistryOp where
  | openOp (connectOk : Bool) (displayHandle : Nat) (name : String)
  | removeOp (name : String)
deriving Repr, DecidableEq

def applyOp (m : WaylandModule) (op : RegistryOp) : WaylandModule :=
  match op with
  | .openOp ok h name => (openDisplay ok h m name).module
  | .removeOp name => (removeDisplay m name).module

def runOps (m : WaylandModule) (ops : List RegistryOp) : WaylandModule :=
  ops.foldl applyOp m

/-- An ini-structured configuration (`RawConfig` restricted to the flat
path-keyed view used here): an association list path ↦ value. -/
abbrev RawConfig := List (String × String)

/-- `RawConfig::setValueByPath`: overwrite the value under `path`, or append
the entry when the path is absent. -/
def setValueByPath (cfg : RawConfig) (path value : String) : RawConfig :=
  match cfg with
  | [] => [(path, value)]
  | (k, v) :: rest =>
    if k = path then (k, value) :: rest
    else (k, v) :: setValueByPath rest path value

/-- `RawConfig::valueByPath`: look up the value under `path`. -/
def valueByPath (cfg : RawConfig) (path : String) : Option String :=
  match cfg with
  | [] => none
  | (k, v) :: rest => if k = path then some v else valueByPath rest path

/-- Modelled from the spec: the repository's `parseLayout` helper (declared
in `fcitx/misc_p.h`, which is not part of this source tree) splits a layout
string at the first `~` into a (layout, variant) pair, the variant being
empty when no `~` occurs: `"us"` ↦ `("us", "")`,
`"us~dvorak"` ↦ `("us", "dvorak")`, `""` ↦ `("", "")`. -/
def parseLayoutChars : List Char → List Char × List Char
  | [] => ([], [])
  | c :: rest =>
    if c = '~' then ([], rest)
    else
      let (l, v) := parseLayoutChars rest
      (c :: l, v)

def parseLayout (s : String) : String × String :=
  let (l, v) := parseLayoutChars s.data
  (⟨l⟩, ⟨v⟩)

/-- `DEFAULT_XKB_RULES`, defined outside this source tree; its concrete
value is irrelevant to the claims. -/
def DEFAULT_XKB_RULES : String := "evdev"

/-- External state read by the `InputMethodGroupChanged` handler: the
desktop-type check `isKDE()`, dbus addon availability, the current group's
default layout string, and the on-disk `kxkbrc` configuration. -/
structure LayoutEnv where
  isKDE : Bool
  dbusAvailable : Bool
  defaultLayout : String
  kxkbrc : RawConfig
deriving Repr, DecidableEq

/-- Observable side effects of the `InputMethodGroupChanged` handler. -/
inductive LayoutEffect where
  | readConfigFile (file : String)
  | setXkbParameters (display : String) (rules model options : String)
  | saveConfigFile (file : String) (cfg : RawConfig)
  | sendSignal (path iface member : String)
deriving Repr, DecidableEq

/-- The `kxkbrc` configuration after the handler's four
`setValueByPath` calls. -/
def kxkbrcAfter (env : LayoutEnv) : RawConfig :=
  setValueByPath
    (setValueByPath
      (setValueByPath
        (setValueByPath env.kxkbrc "Layout/LayoutList"
          (parseLayout env.defaultLayout).1)
        "Layout/VariantList" (parseLayout env.defaultLayout).2)
      "Layout/DisplayNames" "")
    "Layout/Use" "true"

/-- The `InputMethodGroupChanged` handler installed in the `WaylandModule`
constructor.  Guards, in source order: `isKDE()` and `isWaylandSession_`;
a connection named `""` in `conns_`; the dbus addon.  When all pass: read
`kxkbrc`, overwrite the four layout keys, read `Layout/Model` and
`Layout/Options`, apply xkb parameters to the default connection's focus
group, save the mutated config, and send the payload-free `reloadConfig`
signal. -/
def groupChangedHandler (m : WaylandModule) (env : LayoutEnv) :
    List LayoutEffect :=
  if !env.isKDE || !m.isWaylandSession then []
  else
    match findConn m.conns "" with
    | none => []
    | some conn =>
      if !env.dbusAvailable then []
      else
        let cfg := kxkbrcAfter env
        let model := valueByPath cfg "Layout/Model"
        let options := valueByPath cfg "Layout/Options"
        [ .readConfigFile "kxkbrc"
        , .setXkbParameters (focusGroupDisplay conn) DEFAULT_XKB_RULES
            (model.getD "") (options.getD "")
        , .saveConfigFile "kxkbrc" cfg
        , .sendSignal "/Layouts" "org.kde.keyboard" "reloadConfig" ]

/-! ## Helper lemmas on the association-list map and the ini config -/

theorem findConn_eq_none_iff (l : List (String × WaylandConnection))
    (n : String) : findConn l n = none ↔ n ∉ l.map Prod.fst := by
  induction l with
  | nil => simp [findConn]
  | cons kv rest ih =>
    obtain ⟨k, c⟩ := kv
    by_cases hk : k = n
    · subst hk
      simp [findConn]
    · have hstep : findConn ((k, c) :: rest) n = findConn rest n := by
        simp [findConn, hk]
      rw [List.map_cons, List.mem_cons, not_or, hstep, ih]
      constructor
      · exact fun h => ⟨fun hn => hk hn.symm, h⟩
      · exact fun h => h.2

theorem eraseConn_sublist (l : List (String × WaylandConnection))
    (n : String) : List.Sublist (eraseConn l n) l := by
  induction l with
  | nil => simp [eraseConn]
  | cons kv rest ih =>
    obtain ⟨k, c⟩ := kv
    by_cases hk : k = n
    · subst hk
      have hstep : eraseConn ((k, c) :: rest) k = rest := by simp [eraseConn]
      rw [hstep]
      exact List.sublist_cons_self (k, c) rest
    · have hstep : eraseConn ((k, c) :: rest) n = (k, c) :: eraseConn rest n := by
        simp [eraseConn, hk]
      rw [hstep]
      exact ih.cons₂ (k, c)

theorem findConn_eraseConn_self (l : List (String × WaylandConnection))
    (n : String) (h : (l.map Prod.fst).Nodup) :
    findConn (eraseConn l n) n = none := by
  induction l with
  | nil => simp [eraseConn, findConn]
  | cons kv rest ih =>
    obtain ⟨k, c⟩ := kv
    simp only [List.map_cons, List.nodup_cons] at h
    by_cases hk : k = n
    · subst hk
      simpa [eraseConn] using (findConn_eq_none_iff rest k).mpr h.1
    · simpa [eraseConn, findConn, hk] using ih h.2

theorem valueByPath_setValueByPath_same (cfg : RawConfig) (p v : String) :
    valueByPath (setValueByPath cfg p v) p = some v := by
  induction cfg with
  | nil => simp [setValueByPath, valueByPath]
  | cons kv rest ih =>
    obtain ⟨k, w⟩ := kv
    by_cases hk : k = p <;> simp [setValueByPath, valueByPath, hk, ih]

theorem valueByPath_setValueByPath_ne (cfg : RawConfig) (p v q : String)
    (h : p ≠ q) :
    valueByPath (setValueByPath cfg p v) q = valueByPath cfg q := by
  induction cfg with
  | nil => simp [setValueByPath, valueByPath, h]
  | cons kv rest ih =>
    obtain ⟨k, w⟩ := kv
    by_cases hk : k = p
    · subst hk
      simp [setValueByPath, valueByPath, h]
    · simp [setValueByPath, valueByPath, hk, ih]

/-! ## Concrete states used by witnesses and counterexamples -/

def sampleConn : WaylandConnection := { name := "", display := 7, error := 0 }

def sampleModule : WaylandModule :=
  { conns := [("", sampleConn)]
    createdCallbacks := [0, 1]
    closedCallbacks := [2]
    isWaylandSession := true
    exitWhenMainDisplayDisconnected := true }

/-- A registry with no connections but both exit-policy flags set. -/
def emptyModule : WaylandModule :=
  { conns := []
    createdCallbacks := []
    closedCallbacks := [2]
    isWaylandSession := true
    exitWhenMainDisplayDisconnected := true }

/-! ## Claim theorems -/

/-- C1 counterexample: with no connection registered and both the
exit-on-main-display-loss policy and the wayland-session flag set, calling
`removeDisplay("")` leaves the map unchanged and publishes nothing, yet it
STILL requests process termination — the exit check in the source sits
outside the presence check, so the call is not the full no-op the claim
states. -/
theorem removeDisplay_absent_default_requests_exit :
    findConn emptyModule.conns "" = none ∧
    (removeDisplay emptyModule "").module = emptyModule ∧
    (removeDisplay emptyModule "").closedNotifications = [] ∧
    (removeDisplay emptyModule "").exitRequested = true :=
  ⟨rfl, rfl, rfl, rfl⟩

/-- C1 (amended): for a name absent from the registry, `removeDisplay`
leaves the connection map unchanged and publishes no closed notification;
process termination is nevertheless requested exactly when the name is the
empty string and both the exit-on-main-display-loss policy and the
wayland-session flag are set. -/
theorem removeDisplay_absent_name (m : WaylandModule) (name : String)
    (h : findConn m.conns name = none) :
    (removeDisplay m name).module = m ∧
    (removeDisplay m name).closedNotifications = [] ∧
    (removeDisplay m name).exitRequested =
      (name.isEmpty && m.exitWhenMainDisplayDisconnected &&
        m.isWaylandSession) := by
  refine ⟨?_, ?_, ?_⟩ <;> simp [removeDisplay, h]

/-- Witness for C1 (amended) at the name "missing", absent from
`sampleModule`. -/
theorem removeDisplay_absent_name_witness :
    (removeDisplay sampleModule "missing").module = sampleModule ∧
    (removeDisplay sampleModule "missing").closedNotifications = [] ∧
    (removeDisplay sampleModule "missing").exitRequested =
      ("missing".isEmpty && sampleModule.exitWhenMainDisplayDisconnected &&
        sampleModule.isWaylandSession) :=
  removeDisplay_absent_name sampleModule "missing" (by decide)

/-- C2: `removeDisplay("")` requests whole-process termination if and only
if the exit-when-main-display-disconnected policy is enabled and the
recorded session type is the wayland session. -/
theorem removeDisplay_default_exit_iff (m : WaylandModule) :
    (removeDisplay m "").exitRequested =
      (m.exitWhenMainDisplayDisconnected && m.isWaylandSession) := by
  cases hf : findConn m.conns "" <;>
    simp [removeDisplay, hf, show "".isEmpty = true from rfl]

/-- C3: when `Connection` construction inside `openDisplay` fails (the
transport is unreachable, so the constructor throws and the `catch`
swallows it), `openDisplay` registers nothing, publishes nothing and
surfaces no error: the whole registry state is returned unchanged. -/
theorem openDisplay_construction_failure_noop (dh : Nat) (m : WaylandModule)
    (name : String) :
    openDisplay false dh m name = { module := m, createdNotifications := [] } :=
  rfl

/-- C4: `addConnectionCreatedCallback` appends the subscriber to the
created table and, before returning, invokes the newly added callback
exactly once per currently-open connection, with that connection's name,
display handle and focus group — zero invocations when the registry is
empty, one per entry otherwise. -/
theorem addConnectionCreatedCallback_registers_and_replays
    (m : WaylandModule) (newId : Nat) :
    (addConnectionCreatedCallback m newId).module.createdCallbacks =
      m.createdCallbacks ++ [newId] ∧
    (addConnectionCreatedCallback m newId).module.conns = m.conns ∧
    (addConnectionCreatedCallback m newId).invocations =
      m.conns.map (fun p => (newId, createdEvent p.2)) ∧
    (addConnectionCreatedCallback m newId).invocations.length =
      m.conns.length := by
  refine ⟨rfl, rfl, rfl, ?_⟩
  simp [addConnectionCreatedCallback]

/-- C10: calling `openDisplay` for a name already present (with the
transport connect succeeding) leaves the registry unchanged — the existing
`Connection` is not replaced — and publishes one additional created
notification for the existing connection to every current created-table
subscriber. -/
theorem openDisplay_existing_name (m : WaylandModule) (name : String)
    (c : WaylandConnection) (dh : Nat)
    (h : findConn m.conns name = some c) :
    openDisplay true dh m name =
      { module := m
        createdNotifications :=
          m.createdCallbacks.map (fun id => (id, createdEvent c)) } := by
  simp [openDisplay, h, onConnectionCreated]

/-- Witness for C10: re-opening the already-registered default display of
`sampleModule`. -/
theorem openDisplay_existing_name_witness :
    openDisplay true 9 sampleModule "" =
      { module := sampleModule
        createdNotifications :=
          sampleModule.createdCallbacks.map
            (fun id => (id, createdEvent sampleConn)) } :=
  openDisplay_existing_name sampleModule "" sampleConn 9 (by decide)

/-- C5: a pump invocation whose readiness flags include error or hangup
transitions the registered connection to Closed immediately — no
prepare-read, read, dispatch or flush is performed — and results in exactly
one closed notification per closed-table subscriber for that connection,
followed by its removal from the registry. -/
theorem pumpConnection_errHup_closes (m : WaylandModule)
    (c : WaylandConnection) (flags : IOEventFlags) (t : Transport)
    (hnodup : (m.conns.map Prod.fst).Nodup)
    (hreg : findConn m.conns c.name = some c)
    (hflags : (flags.err || flags.hup) = true) :
    (pumpConnection m c flags t).pump.finishCalled = true ∧
    (pumpConnection m c flags t).pump.didPrepare = false ∧
    (pumpConnection m c flags t).pump.didRead = false ∧
    (pumpConnection m c flags t).pump.didDispatch = false ∧
    (pumpConnection m c flags t).pump.didFlush = false ∧
    (pumpConnection m c flags t).closedNotifications =
      m.closedCallbacks.map (fun id => (id, closedEvent c)) ∧
    findConn (pumpConnection m c flags t).module.conns c.name = none := by
  have hio : onIOEvent flags t c.error =
      { didPrepare := false, didRead := false, didDispatch := false
        didFlush := false, error := c.error, finishCalled := true } := by
    simp [onIOEvent, hflags]
  refine ⟨?_, ?_, ?_, ?_, ?_, ?_, ?_⟩ <;>
    simp [pumpConnection, hio, removeDisplay, hreg, onConnectionClosed,
      findConn_eraseConn_self m.conns c.name hnodup]

/-- Flags reporting a hangup. -/
def hupFlags : IOEventFlags := { readable := false, err := false, hup := true }

/-- Flags reporting plain readability. -/
def readableFlags : IOEventFlags :=
  { readable := true, err := false, hup := false }

/-- A transport whose dispatch succeeds. -/
def quietTransport : Transport :=
  { prepareReadResult := 0, dispatchResult := 0, lastError := 0 }

/-- A transport whose dispatch fails with protocol error code 5. -/
def failingTransport : Transport :=
  { prepareReadResult := 0, dispatchResult := -1, lastError := 5 }

/-- Witness for C5: a hangup on the default connection of `sampleModule`. -/
theorem pumpConnection_errHup_closes_witness :
    (pumpConnection sampleModule sampleConn hupFlags
        quietTransport).pump.finishCalled = true ∧
    (pumpConnection sampleModule sampleConn hupFlags
        quietTransport).pump.didPrepare = false ∧
    (pumpConnection sampleModule sampleConn hupFlags
        quietTransport).pump.didRead = false ∧
    (pumpConnection sampleModule sampleConn hupFlags
        quietTransport).pump.didDispatch = false ∧
    (pumpConnection sampleModule sampleConn hupFlags
        quietTransport).pump.didFlush = false ∧
    (pumpConnection sampleModule sampleConn hupFlags
        quietTransport).closedNotifications =
      sampleModule.closedCallbacks.map
        (fun id => (id, closedEvent sampleConn)) ∧
    findConn (pumpConnection sampleModule sampleConn hupFlags
        quietTransport).module.conns sampleConn.name = none :=
  pumpConnection_errHup_closes sampleModule sampleConn hupFlags
    quietTransport (by decide) (by decide) (by decide)

/-- C6: in a pump invocation without error/hangup flags, dispatch always
runs; when the dispatch result is negative the connection's error field
captures the transport's last error code (otherwise it keeps its previous
value); `finish` is invoked exactly when the dispatch result is negative
and that captured code is nonzero; and the pump ends with a flush exactly
when `finish` was not invoked. -/
theorem onIOEvent_dispatch_error_flush (flags : IOEventFlags) (t : Transport)
    (e0 : Int) (herr : flags.err = false) (hhup : flags.hup = false) :
    (onIOEvent flags t e0).didDispatch = true ∧
    (onIOEvent flags t e0).error =
      (if t.dispatchResult < 0 then t.lastError else e0) ∧
    ((onIOEvent flags t e0).finishCalled = true ↔
      (t.dispatchResult < 0 ∧ t.lastError ≠ 0)) ∧
    (onIOEvent flags t e0).didFlush = !(onIOEvent flags t e0).finishCalled := by
  unfold onIOEvent
  rw [herr, hhup]
  by_cases hd : t.dispatchResult < 0 <;> by_cases he : t.lastError ≠ 0 <;>
    simp [hd, he]

/-- Witness for C6: a negative dispatch result with a nonzero last error
code. -/
theorem onIOEvent_dispatch_error_flush_witness :
    (onIOEvent readableFlags failingTransport 0).didDispatch = true ∧
    (onIOEvent readableFlags failingTransport 0).error =
      (if failingTransport.dispatchResult < 0 then failingTransport.lastError
       else 0) ∧
    ((onIOEvent readableFlags failingTransport 0).finishCalled = true ↔
      (failingTransport.dispatchResult < 0 ∧
        failingTransport.lastError ≠ 0)) ∧
    (onIOEvent readableFlags failingTransport 0).didFlush =
      !(onIOEvent readableFlags failingTransport 0).finishCalled :=
  onIOEvent_dispatch_error_flush readableFlags failingTransport 0 rfl rfl

/-- `openDisplay` preserves uniqueness of the registry's keys. -/
theorem openDisplay_keys_nodup (ok : Bool) (dh : Nat) (m : WaylandModule)
    (name : String) (h : (m.conns.map Prod.fst).Nodup) :
    (((openDisplay ok dh m name).module).conns.map Prod.fst).Nodup := by
  cases ok
  · simpa [openDisplay] using h
  · cases hf : findConn m.conns name with
    | some existing => simpa [openDisplay, hf] using h
    | none =>
      have hnotin : name ∉ m.conns.map Prod.fst :=
        (findConn_eq_none_iff m.conns name).mp hf
      simp [openDisplay, hf, List.nodup_append, h, hnotin]

/-- `removeDisplay` preserves uniqueness of the registry's keys. -/
theorem removeDisplay_keys_nodup (m : WaylandModule) (name : String)
    (h : (m.conns.map Prod.fst).Nodup) :
    (((removeDisplay m name).module).conns.map Prod.fst).Nodup := by
  cases hf : findConn m.conns name with
  | none => simpa [removeDisplay, hf] using h
  | some c =>
    have hsub : List.Sublist ((eraseConn m.conns name).map Prod.fst)
        (m.conns.map Prod.fst) :=
      (eraseConn_sublist m.conns name).map Prod.fst
    simpa [removeDisplay, hf] using List.Nodup.sublist hsub h

/-- C7: across every sequence of `openDisplay`/`removeDisplay` operations,
the registry's name-keyed connection map never holds two entries under the
same name — key uniqueness is an invariant. -/
theorem runOps_keys_nodup (ops : List RegistryOp) (m : WaylandModule)
    (h : (m.conns.map Prod.fst).Nodup) :
    (((runOps m ops).conns).map Prod.fst).Nodup := by
  induction ops generalizing m with
  | nil => exact h
  | cons op rest ih =>
    have hstep : runOps m (op :: rest) = runOps (applyOp m op) rest := rfl
    rw [hstep]
    cases op with
    | openOp ok dh name => exact ih _ (openDisplay_keys_nodup ok dh m name h)
    | removeOp name => exact ih _ (removeDisplay_keys_nodup m name h)

/-- Witness for C7: opening the default display twice and once more under a
second name, then removing one, starting from the empty registry. -/
theorem runOps_keys_nodup_witness :
    (((runOps emptyModule
        [RegistryOp.openOp true 1 "", RegistryOp.openOp true 2 "",
         RegistryOp.openOp true 3 "wayland-1", RegistryOp.removeOp ""]).conns).map
        Prod.fst).Nodup :=
  runOps_keys_nodup
    [RegistryOp.openOp true 1 "", RegistryOp.openOp true 2 "",
     RegistryOp.openOp true 3 "wayland-1", RegistryOp.removeOp ""]
    emptyModule (by decide)

/-- C8: whenever any of the four guards of the input-method-group-changed
handler fails — not the KDE desktop, not a wayland session, no connection
named "", or dbus unavailable — the handler returns with zero observable
side effects: no config read or write, no xkb-parameter application, no
signal emission. -/
theorem groupChangedHandler_guard_failure (m : WaylandModule)
    (env : LayoutEnv)
    (h : env.isKDE = false ∨ m.isWaylandSession = false ∨
      findConn m.conns "" = none ∨ env.dbusAvailable = false) :
    groupChangedHandler m env = [] := by
  unfold groupChangedHandler
  rcases h with h | h | h | h
  · simp [h]
  · simp [h]
  · simp [h]
  · cases hf : findConn m.conns "" <;> simp [hf, h]

/-- An environment whose desktop is not KDE (first guard fails). -/
def nonKdeEnv : LayoutEnv :=
  { isKDE := false, dbusAvailable := true, defaultLayout := "us", kxkbrc := [] }

/-- Witness for C8: on a non-KDE desktop the handler emits no effects. -/
theorem groupChangedHandler_guard_failure_witness :
    groupChangedHandler sampleModule nonKdeEnv = [] :=
  groupChangedHandler_guard_failure sampleModule nonKdeEnv (Or.inl rfl)

/-- C9: when all four guards pass, the handler overwrites exactly the four
keys `Layout/LayoutList` (parsed layout), `Layout/VariantList` (parsed
variant), `Layout/DisplayNames` (empty) and `Layout/Use` ("true") in the
loaded configuration, leaves the existing `Layout/Model` and
`Layout/Options` values untouched (they are only read), persists the
mutated configuration, and emits a payload-free signal at path `/Layouts`,
interface `org.kde.keyboard`, member `reloadConfig`. -/
theorem groupChangedHandler_all_guards_pass (m : WaylandModule)
    (env : LayoutEnv) (conn : WaylandConnection)
    (hk : env.isKDE = true) (hw : m.isWaylandSession = true)
    (hc : findConn m.conns "" = some conn) (hd : env.dbusAvailable = true) :
    groupChangedHandler m env =
      [ LayoutEffect.readConfigFile "kxkbrc"
      , LayoutEffect.setXkbParameters (focusGroupDisplay conn)
          DEFAULT_XKB_RULES
          ((valueByPath (kxkbrcAfter env) "Layout/Model").getD "")
          ((valueByPath (kxkbrcAfter env) "Layout/Options").getD "")
      , LayoutEffect.saveConfigFile "kxkbrc" (kxkbrcAfter env)
      , LayoutEffect.sendSignal "/Layouts" "org.kde.keyboard" "reloadConfig"
      ] ∧
    valueByPath (kxkbrcAfter env) "Layout/LayoutList" =
      some (parseLayout env.defaultLayout).1 ∧
    valueByPath (kxkbrcAfter env) "Layout/VariantList" =
      some (parseLayout env.defaultLayout).2 ∧
    valueByPath (kxkbrcAfter env) "Layout/DisplayNames" = some "" ∧
    valueByPath (kxkbrcAfter env) "Layout/Use" = some "true" ∧
    valueByPath (kxkbrcAfter env) "Layout/Model" =
      valueByPath env.kxkbrc "Layout/Model" ∧
    valueByPath (kxkbrcAfter env) "Layout/Options" =
      valueByPath env.kxkbrc "Layout/Options" := by
  refine ⟨?_, ?_, ?_, ?_, ?_, ?_, ?_⟩
  · simp [groupChangedHandler, hk, hw, hc, hd]
  · unfold kxkbrcAfter
    rw [valueByPath_setValueByPath_ne _ _ _ _ (by decide),
      valueByPath_setValueByPath_ne _ _ _ _ (by decide),
      valueByPath_setValueByPath_ne _ _ _ _ (by decide),
      valueByPath_setValueByPath_same]
  · unfold kxkbrcAfter
    rw [valueByPath_setValueByPath_ne _ _ _ _ (by decide),
      valueByPath_setValueByPath_ne _ _ _ _ (by decide),
      valueByPath_setValueByPath_same]
  · unfold kxkbrcAfter
    rw [valueByPath_setValueByPath_ne _ _ _ _ (by decide),
      valueByPath_setValueByPath_same]
  · unfold kxkbrcAfter
    rw [valueByPath_setValueByPath_same]
  · unfold kxkbrcAfter
    rw [valueByPath_setValueByPath_ne _ _ _ _ (by decide),
      valueByPath_setValueByPath_ne _ _ _ _ (by decide),
      valueByPath_setValueByPath_ne _ _ _ _ (by decide),
      valueByPath_setValueByPath_ne _ _ _ _ (by decide)]
  · unfold kxkbrcAfter
    rw [valueByPath_setValueByPath_ne _ _ _ _ (by decide),
      valueByPath_setValueByPath_ne _ _ _ _ (by decide),
      valueByPath_setValueByPath_ne _ _ _ _ (by decide),
      valueByPath_setValueByPath_ne _ _ _ _ (by decide)]

/-- An environment where every guard passes, with an existing model and
options in the on-disk configuration. -/
def kdeEnv : LayoutEnv :=
  { isKDE := true
    dbusAvailable := true
    defaultLayout := "us~dvorak"
    kxkbrc := [("Layout/Model", "pc105"),
               ("Layout/Options", "grp:alt_shift_toggle")] }

/-- Witness for C9: all guards pass on `sampleModule` under `kdeEnv`. -/
theorem groupChangedHandler_all_guards_pass_witness :
    groupChangedHandler sampleModule kdeEnv =
      [ LayoutEffect.readConfigFile "kxkbrc"
      , LayoutEffect.setXkbParameters (focusGroupDisplay sampleConn)
          DEFAULT_XKB_RULES
          ((valueByPath (kxkbrcAfter kdeEnv) "Layout/Model").getD "")
          ((valueByPath (kxkbrcAfter kdeEnv) "Layout/Options").getD "")
      , LayoutEffect.saveConfigFile "kxkbrc" (kxkbrcAfter kdeEnv)
      , LayoutEffect.sendSignal "/Layouts" "org.kde.keyboard" "reloadConfig"
      ] ∧
    valueByPath (kxkbrcAfter kdeEnv) "Layout/LayoutList" =
      some (parseLayout kdeEnv.defaultLayout).1 ∧
    valueByPath (kxkbrcAfter kdeEnv) "Layout/VariantList" =
      some (parseLayout kdeEnv.defaultLayout).2 ∧
    valueByPath (kxkbrcAfter kdeEnv) "Layout/DisplayNames" = some "" ∧
    valueByPath (kxkbrcAfter kdeEnv) "Layout/Use" = some "true" ∧
    valueByPath (kxkbrcAfter kdeEnv) "Layout/Model" =
      valueByPath kdeEnv.kxkbrc "Layout/Model" ∧
    valueByPath (kxkbrcAfter kdeEnv) "Layout/Options" =
      valueByPath kdeEnv.kxkbrc "Layout/Options" :=
  groupChangedHandler_all_guards_pass sampleModule kdeEnv sampleConn
    rfl rfl (by decide) rfl

end Fcitx.Wayland
